import Mathlib

/-!
Verification development for `src/neuroglancer/navigation_state.ts`.

Modelling conventions:
* JavaScript numbers are modelled as `ℚ`; the arithmetic of this module
  (element-wise add/multiply/divide, quaternion products) is exact over `ℚ`.
* The `Number.NaN` "unset" sentinel used for `NavigationState.zoomFactor`
  is modelled as `Option ℚ` with `none` standing for `NaN`.
* `Signal` dispatches are modelled as an event log (`List Event`) returned
  alongside the new state; a dispatch synchronously runs the handlers that
  the source registers, in subscription order.
* JSON-ish values handed to `restoreState` are modelled by `JSValue`;
  a JavaScript property access `obj[key]` on `undefined`/`null` throws,
  which is modelled by `Option` (`none` = a TypeError escaped).
* `parseFiniteVec` lives in `neuroglancer/util/json`, which is not part of
  the provided sources; it is modelled from the spec (see `parseFiniteVec3`).
* The vector/quaternion helpers (`vec3.add`, `vec3.multiply`, `vec3.divide`,
  `vec3.transformQuat`, `mat3.fromQuat`, `quat.fromMat3`) come from the
  gl-matrix library re-exported by `neuroglancer/util/geom` (also not under
  the provided sources); they are modelled from the spec's description and
  the library's standard element-wise / quaternion formulas.
-/

namespace NS

/-- Three-component vector of (exact) numbers, modelling gl-matrix `Vec3`. -/
structure Vec3 where
  x : ℚ
  y : ℚ
  z : ℚ
deriving DecidableEq, Repr

/-- Model of `vec3.create()`: the zero vector. -/
def vec3create : Vec3 := ⟨0, 0, 0⟩

/-- Model of `vec3.add(out, a, b)`: element-wise sum. -/
def vec3add (a b : Vec3) : Vec3 := ⟨a.x + b.x, a.y + b.y, a.z + b.z⟩

/-- Model of `vec3.multiply(out, a, b)`: element-wise product. -/
def vec3multiply (a b : Vec3) : Vec3 := ⟨a.x * b.x, a.y * b.y, a.z * b.z⟩

/-- Model of `vec3.divide(out, a, b)`: element-wise quotient. -/
def vec3divide (a b : Vec3) : Vec3 := ⟨a.x / b.x, a.y / b.y, a.z / b.z⟩

/-- Quaternion with components `x, y, z, w`, modelling gl-matrix `Quat`. -/
structure Quat where
  x : ℚ
  y : ℚ
  z : ℚ
  w : ℚ
deriving DecidableEq, Repr

/-- Model of `quat.create()`: the identity quaternion `[0, 0, 0, 1]`. -/
def quatCreate : Quat := ⟨0, 0, 0, 1⟩

/-- Model of gl-matrix `vec3.transformQuat(out, a, q)`:
rotate vector `a` by quaternion `q` (computes `q * a * q⁻¹`). -/
def vec3transformQuat (a : Vec3) (q : Quat) : Vec3 :=
  let ix := q.w * a.x + q.y * a.z - q.z * a.y
  let iy := q.w * a.y + q.z * a.x - q.x * a.z
  let iz := q.w * a.z + q.x * a.y - q.y * a.x
  let iw := -q.x * a.x - q.y * a.y - q.z * a.z
  ⟨ix * q.w + iw * (-q.x) + iy * (-q.z) - iz * (-q.y),
   iy * q.w + iw * (-q.y) + iz * (-q.x) - ix * (-q.z),
   iz * q.w + iw * (-q.z) + ix * (-q.y) - iy * (-q.x)⟩

/-- Untrusted JSON-like values handed to the `restoreState` methods.
`num` holds a finite number; `nan` stands for any non-finite number. -/
inductive JSValue where
  | undefined : JSValue
  | null : JSValue
  | bool : Bool → JSValue
  | num : ℚ → JSValue
  | nan : JSValue
  | str : String → JSValue
  | arr : List JSValue → JSValue
  | obj : List (String × JSValue) → JSValue

/-- Model of the JavaScript property access `v[key]`: accessing a property
of `undefined`/`null` throws a TypeError (modelled as `none`); on any other
non-object value it yields `undefined`; on an object it looks up the key. -/
def jsGet : JSValue → String → Option JSValue
  | .undefined, _ => none
  | .null, _ => none
  | .obj fs, k =>
    some (match fs.lookup k with
          | some v => v
          | none => .undefined)
  | _, _ => some .undefined

/-- Model of `v.hasOwnProperty(key)`: throws on `undefined`/`null`
(modelled as `none`), `false` on other non-objects, key lookup on objects. -/
def jsHasOwnProperty : JSValue → String → Option Bool
  | .undefined, _ => none
  | .null, _ => none
  | .obj fs, k => some (fs.lookup k).isSome
  | _, _ => some false

/-- Modelled from the spec: `parseFiniteVec` of `neuroglancer/util/json`
(not among the provided sources) "attempts to parse a 3-element finite
numeric vector" and "throws on malformed input (wrong length, non-finite
component, wrong type)".  `none` models the thrown parse error. -/
def parseFiniteVec3 : JSValue → Option Vec3
  | .arr [.num a, .num b, .num c] => some ⟨a, b, c⟩
  | _ => none

/-- Change-signal dispatches, one constructor per `Signal` of the module. -/
inductive Event where
  | voxelSizeChanged : Event
  | positionChanged : Event
  | orientationChanged : Event
  | poseChanged : Event
  | navChanged : Event
deriving DecidableEq, Repr

/-- State of class `VoxelSize`: a size vector and a validity flag. -/
structure VoxelSize where
  size : Vec3
  valid : Bool
deriving DecidableEq, Repr

namespace VoxelSize

/-- Model of `new VoxelSize()` with no argument: zero size, invalid. -/
def new : VoxelSize := ⟨vec3create, false⟩

/-- Model of `new VoxelSize(voxelSize)` with an argument: valid. -/
def newWith (v : Vec3) : VoxelSize := ⟨v, true⟩

/-- Model of `VoxelSize.setValid()`: if invalid, become valid and dispatch
`changed` (the returned `Bool` records whether the dispatch happened). -/
def setValid (s : VoxelSize) : VoxelSize × Bool :=
  if s.valid then (s, false) else ({ s with valid := true }, true)

/-- Model of `VoxelSize.restoreState(obj)`: on a successful parse, copy
into `size` and call `setValid()`; on a parse failure, mark invalid.
The returned `Bool` records whether `changed` was dispatched. -/
def restoreState (s : VoxelSize) (obj : JSValue) : VoxelSize × Bool :=
  match parseFiniteVec3 obj with
  | some v => VoxelSize.setValid { s with size := v }
  | none => ({ s with valid := false }, false)

/-- Model of `VoxelSize.voxelFromSpatial(out, spatial)`: element-wise
division of the spatial coordinates by the voxel size. -/
def voxelFromSpatial (s : VoxelSize) (spatial : Vec3) : Vec3 :=
  vec3divide spatial s.size

/-- Model of `VoxelSize.spatialFromVoxel(out, voxel)`: element-wise
multiplication of the voxel coordinates by the voxel size. -/
def spatialFromVoxel (s : VoxelSize) (voxel : Vec3) : Vec3 :=
  vec3multiply voxel s.size

end VoxelSize

/-- State of class `SpatialPosition`: an owned `VoxelSize`, spatial
coordinates with a validity flag, and the optional pending voxel
coordinates (`null` modelled as `none`). -/
structure SpatialPosition where
  voxelSize : VoxelSize
  spatialCoordinates : Vec3
  spatialCoordinatesValid : Bool
  voxelCoordinates : Option Vec3
deriving DecidableEq, Repr

namespace SpatialPosition

/-- Model of `new SpatialPosition()` with no arguments. -/
def new : SpatialPosition := ⟨VoxelSize.new, vec3create, false, none⟩

/-- Model of the getter `SpatialPosition.valid`. -/
def valid (p : SpatialPosition) : Bool :=
  p.spatialCoordinatesValid && p.voxelSize.valid

/-- Model of the getter `SpatialPosition.voxelCoordinatesValid`. -/
def voxelCoordinatesValid (p : SpatialPosition) : Bool :=
  p.valid || p.voxelCoordinates.isSome

/-- Model of `SpatialPosition.markSpatialCoordinatesChanged()`. -/
def markSpatialCoordinatesChanged (p : SpatialPosition) :
    SpatialPosition × List Event :=
  ({ p with spatialCoordinatesValid := true, voxelCoordinates := none },
   [Event.positionChanged])

/-- Model of `SpatialPosition.setVoxelCoordinates(voxelCoordinates)`:
if the voxel size is valid, convert immediately and mark changed; else
store the pending voxel coordinate.  Dispatches `changed` at the end
(in the valid branch `markSpatialCoordinatesChanged` dispatched already,
so that branch dispatches twice, as the source does). -/
def setVoxelCoordinates (p : SpatialPosition) (v : Vec3) :
    SpatialPosition × List Event :=
  if p.voxelSize.valid then
    let p1 := { p with spatialCoordinates := p.voxelSize.spatialFromVoxel v }
    let r := p1.markSpatialCoordinatesChanged
    (r.1, r.2 ++ [Event.positionChanged])
  else
    ({ p with voxelCoordinates := some v }, [Event.positionChanged])

/-- Model of `SpatialPosition.getVoxelCoordinates(out)`: the `false`
return of the source is modelled as `none`. -/
def getVoxelCoordinates (p : SpatialPosition) : Option Vec3 :=
  match p.voxelCoordinates with
  | some vc => some vc
  | none =>
    if p.valid then some (p.voxelSize.voxelFromSpatial p.spatialCoordinates)
    else none

/-- Model of the private handler `SpatialPosition.handleVoxelSizeChanged()`,
run when the owned `VoxelSize` dispatches `changed`: resolve a pending voxel
coordinate if the spatial coordinates are not already valid, clear the
pending coordinate either way, and dispatch `changed`. -/
def handleVoxelSizeChanged (p : SpatialPosition) :
    SpatialPosition × List Event :=
  let p1 :=
    match p.voxelCoordinates with
    | some vc =>
      if p.spatialCoordinatesValid then p
      else
        { p with spatialCoordinates := p.voxelSize.spatialFromVoxel vc,
                 spatialCoordinatesValid := true }
    | none => p
  ({ p1 with voxelCoordinates := none }, [Event.positionChanged])

/-- Model of calling `restoreState`/`setValid` on the `VoxelSize` embedded
in a stand-alone `SpatialPosition`: the position subscribed to the voxel
size's `changed` signal in its constructor, so a dispatch runs
`handleVoxelSizeChanged`. -/
def voxelSizeRestoreState (p : SpatialPosition) (obj : JSValue) :
    SpatialPosition × List Event :=
  let r := p.voxelSize.restoreState obj
  let p1 := { p with voxelSize := r.1 }
  if r.2 then
    let h := p1.handleVoxelSizeChanged
    (h.1, Event.voxelSizeChanged :: h.2)
  else (p1, [])

/-- Model of `SpatialPosition.restoreState(obj)`.  The source first
restores the embedded `VoxelSize` from `obj['voxelSize']` (a dispatch of
its `changed` signal runs `handleVoxelSizeChanged`), then clears
`spatialCoordinatesValid`, then, if the `voxelCoordinates` property is
present, tries to parse it and on success calls `setVoxelCoordinates`,
and then always tries to parse `spatialCoordinates`, on success storing it
and calling `markSpatialCoordinatesChanged`.  `none` models an uncaught
TypeError (property access on an `undefined`/`null` argument). -/
def restoreState (p : SpatialPosition) (obj : JSValue) :
    Option (SpatialPosition × List Event) :=
  match jsGet obj "voxelSize" with
  | none => none
  | some vsJson =>
    let r := p.voxelSize.restoreState vsJson
    let pa := { p with voxelSize := r.1 }
    let s1 :=
      if r.2 then
        let h := pa.handleVoxelSizeChanged
        (h.1, Event.voxelSizeChanged :: h.2)
      else (pa, ([] : List Event))
    let pc := { s1.1 with spatialCoordinatesValid := false }
    match jsHasOwnProperty obj "voxelCoordinates" with
    | none => none
    | some hasVC =>
      let s2 :=
        if hasVC then
          match jsGet obj "voxelCoordinates" with
          | some vcJson =>
            match parseFiniteVec3 vcJson with
            | some v => pc.setVoxelCoordinates v
            | none => (pc, ([] : List Event))
          | none => (pc, ([] : List Event))
        else (pc, ([] : List Event))
      let s3 :=
        match jsGet obj "spatialCoordinates" with
        | some scJson =>
          match parseFiniteVec3 scJson with
          | some v =>
            SpatialPosition.markSpatialCoordinatesChanged
              { s2.1 with spatialCoordinates := v }
          | none => (s2.1, ([] : List Event))
        | none => (s2.1, ([] : List Event))
      some (s3.1, s1.2 ++ s2.2 ++ s3.2)

end SpatialPosition

/-- Model of the helper `quaternionIsIdentity(quat)`: exact component-wise
comparison with `[0, 0, 0, 1]` (the source uses `===` on each component). -/
def quaternionIsIdentity (q : Quat) : Bool :=
  decide (q.x = 0) && decide (q.y = 0) && decide (q.z = 0) && decide (q.w = 1)

/-- State of class `OrientationState`: a quaternion. -/
structure OrientationState where
  orientation : Quat
deriving DecidableEq, Repr

namespace OrientationState

/-- Model of `new OrientationState()` with no argument: identity quaternion. -/
def new : OrientationState := ⟨quatCreate⟩

/-- Model of `OrientationState.toJSON()`: omitted (`undefined`, modelled as
`none`) when the quaternion is exactly the identity, else the component list. -/
def toJSON (o : OrientationState) : Option (List ℚ) :=
  if quaternionIsIdentity o.orientation then none
  else some [o.orientation.x, o.orientation.y, o.orientation.z, o.orientation.w]

end OrientationState

/-- State of class `Pose`: an owned `SpatialPosition` and `OrientationState`. -/
structure Pose where
  position : SpatialPosition
  orientation : OrientationState
deriving DecidableEq, Repr

namespace Pose

/-- Model of `new Pose()` with no arguments. -/
def new : Pose := ⟨SpatialPosition.new, OrientationState.new⟩

/-- Model of the getter `Pose.valid`. -/
def valid (p : Pose) : Bool := p.position.valid

/-- Model of `Pose.translateAbsolute(translation)`: add the translation to
the spatial coordinates and dispatch `position.changed` (to which the pose
subscribed its own `changed` in the constructor, hence the second event). -/
def translateAbsolute (p : Pose) (translation : Vec3) : Pose × List Event :=
  let coords := vec3add p.position.spatialCoordinates translation
  let pos := { p.position with spatialCoordinates := coords }
  ({ p with position := pos }, [Event.positionChanged, Event.poseChanged])

/-- Model of `Pose.translateRelative(translation)`: no-op when the pose is
invalid; otherwise rotate the translation by the current orientation, add
it to the spatial coordinates and dispatch `position.changed`. -/
def translateRelative (p : Pose) (translation : Vec3) : Pose × List Event :=
  if p.valid then
    let temp := vec3transformQuat translation p.orientation.orientation
    let coords := vec3add p.position.spatialCoordinates temp
    let pos := { p.position with spatialCoordinates := coords }
    ({ p with position := pos }, [Event.positionChanged, Event.poseChanged])
  else (p, [])

end Pose

/-- Model of `Math.min.apply(null, size)` for the three components. -/
def min3 (v : Vec3) : ℚ := min v.x (min v.y v.z)

/-- State of class `NavigationState`: an owned `Pose` and the zoom factor,
where `none` models the `Number.NaN` "unset" sentinel. -/
structure NavigationState where
  pose : Pose
  zoomFactor : Option ℚ
deriving DecidableEq, Repr

namespace NavigationState

/-- Model of the getter `NavigationState.voxelSize`. -/
def voxelSize (n : NavigationState) : VoxelSize := n.pose.position.voxelSize

/-- Model of the getter `NavigationState.valid`. -/
def valid (n : NavigationState) : Bool := n.pose.valid

/-- Model of the private `NavigationState.setZoomFactorFromVoxelSize()`:
if the voxel size is valid, set the zoom factor to the minimum voxel-size
component (unconditionally — no check of the current zoom factor) and
dispatch `changed`. -/
def setZoomFactorFromVoxelSize (n : NavigationState) :
    NavigationState × List Event :=
  if n.voxelSize.valid then
    ({ n with zoomFactor := some (min3 n.voxelSize.size) },
     [Event.navChanged])
  else (n, [])

/-- Model of the private handler `NavigationState.handleVoxelSizeChanged()`:
only when the zoom factor is the `NaN` sentinel, derive it from the voxel
size. -/
def handleVoxelSizeChanged (n : NavigationState) :
    NavigationState × List Event :=
  match n.zoomFactor with
  | none => n.setZoomFactorFromVoxelSize
  | some _ => (n, [])

/-- Model of `new NavigationState(pose, zoomFactor)`: store the pose and
the zoom factor (`undefined` becomes the `NaN` sentinel, i.e. `none`), then
call `setZoomFactorFromVoxelSize()` unconditionally. -/
def new (pose : Pose) (zoomFactor : Option ℚ) : NavigationState :=
  (NavigationState.setZoomFactorFromVoxelSize ⟨pose, zoomFactor⟩).1

/-- Model of a dispatch of `voxelSize.changed` seen from a `NavigationState`:
the handlers run in subscription order — first the `SpatialPosition`'s
`handleVoxelSizeChanged` (whose `position.changed` dispatch re-dispatches as
`pose.changed` and then `navigationState.changed`), then the
`NavigationState`'s own `handleVoxelSizeChanged`. -/
def dispatchVoxelSizeChanged (n : NavigationState) :
    NavigationState × List Event :=
  let h := n.pose.position.handleVoxelSizeChanged
  let pose1 := { n.pose with position := h.1 }
  let n1 := { n with pose := pose1 }
  let h2 := n1.handleVoxelSizeChanged
  let evs := h.2 ++ [Event.poseChanged, Event.navChanged] ++ h2.2
  (h2.1, Event.voxelSizeChanged :: evs)

/-- Model of calling `restoreState(obj)` on the `VoxelSize` embedded in a
`NavigationState` (the way the voxel size becomes valid when a dataset
loads): a `changed` dispatch of the voxel size runs the registered
handlers via `dispatchVoxelSizeChanged`. -/
def voxelSizeRestoreState (n : NavigationState) (obj : JSValue) :
    NavigationState × List Event :=
  let r := n.voxelSize.restoreState obj
  let pos1 := { n.pose.position with voxelSize := r.1 }
  let pose1 := { n.pose with position := pos1 }
  let n1 := { n with pose := pose1 }
  if r.2 then n1.dispatchVoxelSizeChanged else (n1, [])

/-- Model of calling `setValid()` on the `VoxelSize` embedded in a
`NavigationState`. -/
def voxelSizeSetValid (n : NavigationState) : NavigationState × List Event :=
  let r := n.voxelSize.setValid
  let pos1 := { n.pose.position with voxelSize := r.1 }
  let pose1 := { n.pose with position := pos1 }
  let n1 := { n with pose := pose1 }
  if r.2 then n1.dispatchVoxelSizeChanged else (n1, [])

end NavigationState

/-!
Model of `OrientationState.snap()`.  The quaternions representing
axis-aligned (90°-multiple) rotations have components in
`{0, ±1, ±1/2, ±√2/2}`, so this part of the development works over the
field `ℚ(√2)`, represented exactly by pairs `a + b·√2` of rationals
(`Q2`).  `Math.sqrt` is modelled by `Q2.sqrt`, which returns the exact
square root whenever it lies in `ℚ ∪ ℚ·√2` — which covers every argument
produced from an axis-aligned rotation matrix (they are `0`, `1`, `2` or
`4`) — and a junk value `0` otherwise.
-/

/-- Exact rational numbers in a kernel-computable normal form (numerator,
positive denominator, lowest terms); the ordinary `ℚ` arithmetic does not
reduce inside `decide`, so the `snap()` evaluation uses this carrier. -/
structure Qr where
  n : Int
  d : Nat
deriving DecidableEq, Repr

namespace Qr

/-- Build the normalized fraction `a / b` (for `b > 0`). -/
def mk' (a : Int) (b : Nat) : Qr :=
  if a = 0 then ⟨0, 1⟩
  else
    let g := Nat.gcd a.natAbs b
    ⟨a / g, b / g⟩

/-- Exact addition of fractions. -/
def add (x y : Qr) : Qr := mk' (x.n * y.d + y.n * x.d) (x.d * y.d)

/-- Exact multiplication of fractions. -/
def mul (x y : Qr) : Qr := mk' (x.n * y.n) (x.d * y.d)

/-- Negation of a fraction. -/
def neg (x : Qr) : Qr := ⟨-x.n, x.d⟩

/-- Exact reciprocal of a fraction (junk `0` for zero). -/
def inv (x : Qr) : Qr :=
  if x.n = 0 then ⟨0, 1⟩
  else if x.n < 0 then ⟨-(x.d : Int), x.n.natAbs⟩
  else ⟨(x.d : Int), x.n.natAbs⟩

/-- Boolean `≤` on fractions (denominators are positive). -/
def ble (x y : Qr) : Bool := decide (x.n * (y.d : Int) ≤ y.n * (x.d : Int))

/-- Boolean `<` on fractions (denominators are positive). -/
def blt (x y : Qr) : Bool := decide (x.n * (y.d : Int) < y.n * (x.d : Int))

end Qr

instance (n : Nat) : OfNat Qr n := ⟨⟨(n : Int), 1⟩⟩

instance : Add Qr := ⟨Qr.add⟩

instance : Neg Qr := ⟨Qr.neg⟩

instance : Sub Qr := ⟨fun x y => x + Qr.neg y⟩

instance : Mul Qr := ⟨Qr.mul⟩

instance : Div Qr := ⟨fun x y => x * Qr.inv y⟩

/-- Structural integer square root by bounded search (`Nat.sqrt` does not
reduce inside `decide`); the arguments arising here are tiny. -/
def natSqrt (m : Nat) : Nat :=
  (List.range (m + 1)).foldl (fun acc k => if k * k ≤ m then k else acc) 0

/-- Exact square root of a nonnegative fraction when it stays rational. -/
def qrSqrt (q : Qr) : Option Qr :=
  if Qr.ble 0 q then
    let sn := natSqrt q.n.toNat
    let sd := natSqrt q.d
    if sn * sn = q.n.toNat ∧ sd * sd = q.d then some (Qr.mk' (sn : Int) sd)
    else none
  else none

/-- Element `a + b·√2` of the field `ℚ(√2)`, the exact carrier for the
`snap()` computation (the quaternions of 90°-multiple rotations have
components in `{0, ±1, ±1/2, ±√2/2}`). -/
structure Q2 where
  a : Qr
  b : Qr
deriving DecidableEq, Repr

instance (n : Nat) : OfNat Q2 n := ⟨⟨⟨(n : Int), 1⟩, 0⟩⟩

instance : Add Q2 := ⟨fun x y => ⟨x.a + y.a, x.b + y.b⟩⟩

instance : Neg Q2 := ⟨fun x => ⟨-x.a, -x.b⟩⟩

instance : Sub Q2 := ⟨fun x y => x + -y⟩

instance : Mul Q2 := ⟨fun x y => ⟨x.a * y.a + 2 * x.b * y.b, x.a * y.b + x.b * y.a⟩⟩

namespace Q2

/-- Positivity of `a + b·√2`, decided by comparing `a²` with `2·b²`. -/
def pos (x : Q2) : Bool :=
  if Qr.ble 0 x.b then
    if Qr.ble 0 x.a then Qr.blt 0 x.a || Qr.blt 0 x.b
    else Qr.blt (x.a * x.a) (2 * x.b * x.b)
  else if Qr.blt 0 x.a then Qr.blt (2 * x.b * x.b) (x.a * x.a) else false

/-- Strict comparison on `ℚ(√2)` (models the JavaScript `<`/`>` on
the exact values). -/
def ltb (x y : Q2) : Bool := (y - x).pos

/-- Model of `Math.abs` on the exact values. -/
def abs (x : Q2) : Q2 := if (-x).pos then -x else x

/-- Model of `Math.sign` on the exact values. -/
def sign (x : Q2) : Q2 := if x.pos then 1 else if (-x).pos then -1 else 0

/-- Multiplicative inverse in `ℚ(√2)`: `(a + b√2)⁻¹ = (a − b√2)/(a² − 2b²)`
(junk `0` for the zero element). -/
def inv (x : Q2) : Q2 :=
  let nr := x.a * x.a - 2 * x.b * x.b
  if nr = (0 : Qr) then 0 else ⟨x.a / nr, (Qr.neg x.b) / nr⟩

/-- Model of `Math.sqrt` on the exact carrier: the exact square root
whenever the real square root lies in `ℚ ∪ ℚ·√2` (this covers every
argument `snap()` produces from an axis-aligned rotation matrix), and the
junk value `0` otherwise. -/
def sqrt (x : Q2) : Q2 :=
  if x.b = (0 : Qr) then
    match qrSqrt x.a with
    | some r => ⟨r, 0⟩
    | none =>
      match qrSqrt (x.a / 2) with
      | some r => ⟨0, r⟩
      | none => 0
  else 0

end Q2

instance : Div Q2 := ⟨fun x y => x * Q2.inv y⟩

/-- Quaternion over the exact carrier `ℚ(√2)`. -/
structure QuatK where
  x : Q2
  y : Q2
  z : Q2
  w : Q2
deriving DecidableEq, Repr

/-- Read entry `i` of a flat 3×3 matrix (gl-matrix column-major layout). -/
def mget (m : List Q2) (i : Nat) : Q2 := m.getD i 0

/-- Write entry `i` of a flat 3×3 matrix. -/
def mset (m : List Q2) (i : Nat) (v : Q2) : List Q2 := m.set i v

/-- Model of gl-matrix `mat3.fromQuat(out, q)` (column-major flat layout,
entry `col*3 + row`), over the exact carrier. -/
def mat3FromQuat (q : QuatK) : List Q2 :=
  let x2 := q.x + q.x
  let y2 := q.y + q.y
  let z2 := q.z + q.z
  let xx := q.x * x2
  let yx := q.y * x2
  let yy := q.y * y2
  let zx := q.z * x2
  let zy := q.z * y2
  let zz := q.z * z2
  let wx := q.w * x2
  let wy := q.w * y2
  let wz := q.w * z2
  [1 - yy - zz, yx + wz, zx - wy,
   yx - wz, 1 - xx - zz, zy + wx,
   zx + wy, zy - wx, 1 - xx - yy]

/-- One inner-loop step (index `j`) of the greedy scan in
`OrientationState.snap()`: read and zero `mat[i*3+j]`, skip used axes,
track the largest-magnitude candidate.  State: (matrix, maxComponent,
argmaxComponent). -/
def snapRowStep (used : List Bool) (i j : Nat) (st : List Q2 × Q2 × Nat) :
    List Q2 × Q2 × Nat :=
  let value := mget st.1 (i * 3 + j)
  let m1 := mset st.1 (i * 3 + j) 0
  if used.getD j false then (m1, st.2.1, st.2.2)
  else if (Q2.abs st.2.1).ltb (Q2.abs value) then (m1, value, j)
  else (m1, st.2.1, st.2.2)

/-- One outer-loop iteration (index `i`) of `OrientationState.snap()`:
scan the three entries of slice `i`, then set the selected entry to the
sign of the largest candidate and mark its axis used. -/
def snapRow (st : List Q2 × List Bool) (i : Nat) : List Q2 × List Bool :=
  let r := snapRowStep st.2 i 2 (snapRowStep st.2 i 1 (snapRowStep st.2 i 0 (st.1, 0, 0)))
  (mset r.1 (i * 3 + r.2.2) (Q2.sign r.2.1), st.2.set r.2.2 true)

/-- The greedy signed-permutation rounding of `OrientationState.snap()`:
the three outer-loop iterations applied to the matrix, starting with no
axis used. -/
def snapGreedy (m : List Q2) : List Q2 :=
  (snapRow (snapRow (snapRow (m, [false, false, false]) 0) 1) 2).1

/-- Model of gl-matrix `quat.fromMat3(out, m)` over the exact carrier. -/
def quatFromMat3 (m : List Q2) : QuatK :=
  let fTrace := mget m 0 + mget m 4 + mget m 8
  let half : Q2 := ⟨⟨1, 2⟩, 0⟩
  if Q2.ltb 0 fTrace then
    let fRoot := Q2.sqrt (fTrace + 1)
    let w := half * fRoot
    let fr := half / fRoot
    ⟨(mget m 5 - mget m 7) * fr, (mget m 6 - mget m 2) * fr,
     (mget m 1 - mget m 3) * fr, w⟩
  else
    let i0 := if Q2.ltb (mget m 0) (mget m 4) then 1 else 0
    let i := if Q2.ltb (mget m (i0 * 3 + i0)) (mget m 8) then 2 else i0
    let j := (i + 1) % 3
    let k := (i + 2) % 3
    let fRoot := Q2.sqrt (mget m (i * 3 + i) - mget m (j * 3 + j) - mget m (k * 3 + k) + 1)
    let oi := half * fRoot
    let fr := half / fRoot
    let o3 := (mget m (j * 3 + k) - mget m (k * 3 + j)) * fr
    let oj := (mget m (j * 3 + i) + mget m (i * 3 + j)) * fr
    let ok := (mget m (k * 3 + i) + mget m (i * 3 + k)) * fr
    let outl :=
      List.set (List.set (List.set (List.set (List.replicate 4 (0 : Q2)) i oi) 3 o3) j oj) k ok
    ⟨mget outl 0, mget outl 1, mget outl 2, mget outl 3⟩

/-- The quaternion-level effect of `OrientationState.snap()`:
quaternion → rotation matrix → greedy rounding → quaternion. -/
def snapQuat (q : QuatK) : QuatK := quatFromMat3 (snapGreedy (mat3FromQuat q))

/-- State of class `OrientationState` over the exact carrier, for the
`snap()` analysis. -/
structure OrientationStateK where
  orientation : QuatK
deriving DecidableEq, Repr

/-- Model of `OrientationState.snap()`: replace the orientation by its
greedy axis-aligned rounding and dispatch `changed`. -/
def OrientationStateK.snap (o : OrientationStateK) : OrientationStateK × List Event :=
  (⟨snapQuat o.orientation⟩, [Event.orientationChanged])

/-- Unit-norm test for a quaternion over the exact carrier. -/
def isUnitQuat (q : QuatK) : Bool :=
  decide (q.x * q.x + q.y * q.y + q.z * q.z + q.w * q.w = 1)

/-- Signed-permutation test for a flat 3×3 matrix: every entry in
`{0, 1, -1}` and exactly one nonzero entry in every row and column. -/
def isSignedPermMat (m : List Q2) : Bool :=
  decide (m.length = 9) &&
  (List.range 9).all
    (fun idx => decide (mget m idx = 0) || decide (mget m idx = 1) || decide (mget m idx = -1)) &&
  (List.range 3).all
    (fun i => ((List.range 3).filter fun j => !decide (mget m (i * 3 + j) = 0)).length = 1) &&
  (List.range 3).all
    (fun j => ((List.range 3).filter fun i => !decide (mget m (i * 3 + j) = 0)).length = 1)

/-- A quaternion is axis-aligned when it is a unit quaternion whose
rotation matrix (as computed by the source's `mat3.fromQuat`) is a
signed permutation matrix, i.e. it represents a rotation restricted to
90° multiples. -/
def isAxisAligned (q : QuatK) : Bool :=
  isUnitQuat q && isSignedPermMat (mat3FromQuat q)

/-- Abbreviation for the `ℚ(√2)` element `0`. -/
def o : Q2 := ⟨⟨0, 1⟩, ⟨0, 1⟩⟩

/-- Abbreviation for the `ℚ(√2)` element `1`. -/
def l : Q2 := ⟨⟨1, 1⟩, ⟨0, 1⟩⟩

/-- Abbreviation for the `ℚ(√2)` element `1/2`. -/
def h : Q2 := ⟨⟨1, 2⟩, ⟨0, 1⟩⟩

/-- Abbreviation for the `ℚ(√2)` element `√2/2`. -/
def s : Q2 := ⟨⟨0, 1⟩, ⟨1, 2⟩⟩

/-- The 48 unit quaternions representing the 24 axis-aligned
(90°-multiple) rotations — the binary octahedral group, two quaternions
(`±q`) per rotation.  Components lie in `{0, ±1, ±1/2, ±√2/2}`; a theorem
below checks `isAxisAligned` on every member. -/
def axisAlignedQuats : List QuatK :=
  [⟨o, o, o, l⟩, ⟨o, o, o, -l⟩, ⟨o, o, l, o⟩, ⟨o, o, -l, o⟩,
   ⟨o, o, s, s⟩, ⟨o, o, s, -s⟩, ⟨o, o, -s, s⟩, ⟨o, o, -s, -s⟩,
   ⟨o, l, o, o⟩, ⟨o, -l, o, o⟩, ⟨o, s, o, s⟩, ⟨o, s, o, -s⟩,
   ⟨o, s, s, o⟩, ⟨o, s, -s, o⟩, ⟨o, -s, o, s⟩, ⟨o, -s, o, -s⟩,
   ⟨o, -s, s, o⟩, ⟨o, -s, -s, o⟩, ⟨l, o, o, o⟩, ⟨-l, o, o, o⟩,
   ⟨h, h, h, h⟩, ⟨h, h, h, -h⟩, ⟨h, h, -h, h⟩, ⟨h, h, -h, -h⟩,
   ⟨h, -h, h, h⟩, ⟨h, -h, h, -h⟩, ⟨h, -h, -h, h⟩, ⟨h, -h, -h, -h⟩,
   ⟨-h, h, h, h⟩, ⟨-h, h, h, -h⟩, ⟨-h, h, -h, h⟩, ⟨-h, h, -h, -h⟩,
   ⟨-h, -h, h, h⟩, ⟨-h, -h, h, -h⟩, ⟨-h, -h, -h, h⟩, ⟨-h, -h, -h, -h⟩,
   ⟨s, o, o, s⟩, ⟨s, o, o, -s⟩, ⟨s, o, s, o⟩, ⟨s, o, -s, o⟩,
   ⟨s, s, o, o⟩, ⟨s, -s, o, o⟩, ⟨-s, o, o, s⟩, ⟨-s, o, o, -s⟩,
   ⟨-s, o, s, o⟩, ⟨-s, o, -s, o⟩, ⟨-s, s, o, o⟩, ⟨-s, -s, o, o⟩]

/-!
Concrete sample states and inputs used by the theorems below.
-/

/-- A pose whose embedded voxel size is already valid with size `[2,4,3]`. -/
def poseWithValidVS : Pose :=
  ⟨⟨VoxelSize.newWith ⟨2, 4, 3⟩, vec3create, false, none⟩, OrientationState.new⟩

/-- A fully valid pose (valid voxel size `[1,1,1]`, valid spatial
coordinates `[5,6,7]`, identity orientation). -/
def poseValidSample : Pose :=
  ⟨⟨VoxelSize.newWith ⟨1, 1, 1⟩, ⟨5, 6, 7⟩, true, none⟩, OrientationState.new⟩

/-- A navigation state with an already-set zoom factor `7` and an invalid
voxel size. -/
def navZoomSample : NavigationState := ⟨Pose.new, some 7⟩

/-- The JSON array `[2, 4, 3]`. -/
def objVS243 : JSValue := JSValue.arr [JSValue.num 2, JSValue.num 4, JSValue.num 3]

/-- The JSON array `[1, 1, 1]`. -/
def objVS111 : JSValue := JSValue.arr [JSValue.num 1, JSValue.num 1, JSValue.num 1]

/-- A general `SpatialPosition` JSON object with the three properties the
source consults. -/
def obj3 (vsJ vcJ scJ : JSValue) : JSValue :=
  JSValue.obj
    [("voxelSize", vsJ), ("voxelCoordinates", vcJ), ("spatialCoordinates", scJ)]

/-- A restore object carrying a voxel size, voxel coordinates `[1,2,3]`
and spatial coordinates `[7,8,9]` at the same time. -/
def objBothCoords : JSValue :=
  obj3 objVS111
    (JSValue.arr [JSValue.num 1, JSValue.num 2, JSValue.num 3])
    (JSValue.arr [JSValue.num 7, JSValue.num 8, JSValue.num 9])

/-!
Theorems settling the claims.
-/

/-- C7: `OrientationState.toJSON()` omits its output (returns `undefined`,
modelled as `none`) if and only if the quaternion equals `[0,0,0,1]` under
exact component-wise equality; for every other quaternion it returns the
four components. -/
theorem orientationState_toJSON_identity (ori : OrientationState) :
    (ori.toJSON = none ↔ ori.orientation = quatCreate) ∧
    (ori.toJSON =
      if ori.orientation = quatCreate then none
      else some [ori.orientation.x, ori.orientation.y,
                 ori.orientation.z, ori.orientation.w]) := by
  obtain ⟨⟨x, y, z, w⟩⟩ := ori
  by_cases hx : x = 0 <;> by_cases hy : y = 0 <;> by_cases hz : z = 0 <;>
    by_cases hw : w = 1 <;>
      simp [OrientationState.toJSON, quaternionIsIdentity, quatCreate,
        Quat.mk.injEq, hx, hy, hz, hw]

/-- C7 witness: a non-identity quaternion `[1,0,0,0]` serializes to its
component list. -/
theorem orientationState_toJSON_identity_witness :
    OrientationState.toJSON ⟨⟨1, 0, 0, 0⟩⟩ = some [1, 0, 0, 0] := by
  have hthm := orientationState_toJSON_identity ⟨⟨1, 0, 0, 0⟩⟩
  rw [hthm.2]
  norm_num [quatCreate, Quat.mk.injEq]

/-- C8: for every valid voxel size (positive components) and every voxel
coordinate, converting to spatial units with `spatialFromVoxel`
(element-wise multiply) and back with `voxelFromSpatial` (element-wise
divide) returns the original coordinate; the arithmetic of the model is
exact, so the round trip is exact. -/
theorem voxelSize_roundTrip (vs : VoxelSize) (v : Vec3)
    (hx : 0 < vs.size.x) (hy : 0 < vs.size.y) (hz : 0 < vs.size.z) :
    vs.voxelFromSpatial (vs.spatialFromVoxel v) = v := by
  obtain ⟨⟨sa, sb, sc⟩, sval⟩ := vs
  obtain ⟨va, vb, vc⟩ := v
  simp only [VoxelSize.voxelFromSpatial, VoxelSize.spatialFromVoxel,
    vec3divide, vec3multiply, Vec3.mk.injEq] at *
  refine ⟨?_, ?_, ?_⟩
  · exact mul_div_cancel_right₀ va (ne_of_gt hx)
  · exact mul_div_cancel_right₀ vb (ne_of_gt hy)
  · exact mul_div_cancel_right₀ vc (ne_of_gt hz)

/-- C8 witness: round trip at voxel size `[1,2,4]` and coordinate `[3,5,7]`. -/
theorem voxelSize_roundTrip_witness :
    (VoxelSize.newWith ⟨1, 2, 4⟩).voxelFromSpatial
      ((VoxelSize.newWith ⟨1, 2, 4⟩).spatialFromVoxel ⟨3, 5, 7⟩) = ⟨3, 5, 7⟩ :=
  voxelSize_roundTrip (VoxelSize.newWith ⟨1, 2, 4⟩) ⟨3, 5, 7⟩
    (by decide) (by decide) (by decide)

/-- C9: `VoxelSize.restoreState` is a total function of the model (no
exception escapes); on any parse failure it leaves `valid = false`, and on
a successful parse of a 3-element finite numeric vector it copies the
values into `size` and marks the voxel size valid. -/
theorem voxelSize_restoreState_bestEffort (vs : VoxelSize) (obj : JSValue) :
    (parseFiniteVec3 obj = none → (vs.restoreState obj).1.valid = false) ∧
    (∀ v, parseFiniteVec3 obj = some v →
      (vs.restoreState obj).1.size = v ∧ (vs.restoreState obj).1.valid = true) := by
  constructor
  · intro hp
    simp [VoxelSize.restoreState, hp]
  · intro v hp
    simp only [VoxelSize.restoreState, hp, VoxelSize.setValid]
    by_cases hv : vs.valid
    · simp [hv]
    · simp [hv]

/-- C9 witness: `["a","b","c"]` and `[1,2]` leave `valid = false`; `[1,2,3]`
copies the size and validates. -/
theorem voxelSize_restoreState_bestEffort_witness :
    (VoxelSize.new.restoreState
        (JSValue.arr [JSValue.str "a", JSValue.str "b", JSValue.str "c"])).1.valid = false ∧
    (VoxelSize.new.restoreState (JSValue.arr [JSValue.num 1, JSValue.num 2])).1.valid = false ∧
    ((VoxelSize.new.restoreState
        (JSValue.arr [JSValue.num 1, JSValue.num 2, JSValue.num 3])).1.size = ⟨1, 2, 3⟩ ∧
      (VoxelSize.new.restoreState
        (JSValue.arr [JSValue.num 1, JSValue.num 2, JSValue.num 3])).1.valid = true) :=
  ⟨(voxelSize_restoreState_bestEffort VoxelSize.new
      (JSValue.arr [JSValue.str "a", JSValue.str "b", JSValue.str "c"])).1 rfl,
   (voxelSize_restoreState_bestEffort VoxelSize.new
      (JSValue.arr [JSValue.num 1, JSValue.num 2])).1 rfl,
   (voxelSize_restoreState_bestEffort VoxelSize.new
      (JSValue.arr [JSValue.num 1, JSValue.num 2, JSValue.num 3])).2 ⟨1, 2, 3⟩ rfl⟩

/-- C10: `Pose.translateAbsolute` adds the translation to the stored
spatial coordinates and dispatches a change notification even when the
pose is invalid, changing nothing else (validity flag, pending voxel
coordinate, voxel size, orientation), so validity is preserved — in
particular an invalid pose stays invalid — whereas `translateRelative`
does nothing at all on an invalid pose. -/
theorem pose_translateAbsolute_frame (p : Pose) (d : Vec3) :
    (p.translateAbsolute d).1.position.spatialCoordinates
        = vec3add p.position.spatialCoordinates d ∧
    (p.translateAbsolute d).1.position.spatialCoordinatesValid
        = p.position.spatialCoordinatesValid ∧
    (p.translateAbsolute d).1.position.voxelCoordinates
        = p.position.voxelCoordinates ∧
    (p.translateAbsolute d).1.position.voxelSize = p.position.voxelSize ∧
    (p.translateAbsolute d).1.orientation = p.orientation ∧
    (p.translateAbsolute d).2 ≠ [] ∧
    (p.translateAbsolute d).1.valid = p.valid ∧
    (p.valid = false → p.translateRelative d = (p, [])) := by
  refine ⟨rfl, rfl, rfl, rfl, rfl, by simp [Pose.translateAbsolute], rfl, ?_⟩
  intro hv
  simp [Pose.translateRelative, hv]

/-- C5 counterexample: on the invalid default pose (whose orientation is
the identity quaternion), `translateRelative` is a no-op while
`translateAbsolute` moves the coordinates, so the two are not equivalent
for every pose. -/
theorem pose_translate_identity_counterexample :
    Pose.new.orientation.orientation = quatCreate ∧
    (Pose.new.translateRelative ⟨1, 0, 0⟩).1.position.spatialCoordinates
      ≠ (Pose.new.translateAbsolute ⟨1, 0, 0⟩).1.position.spatialCoordinates := by
  refine ⟨rfl, ?_⟩
  simp [Pose.translateRelative, Pose.translateAbsolute, Pose.new,
    SpatialPosition.new, VoxelSize.new, Pose.valid, SpatialPosition.valid,
    vec3create, vec3add, Vec3.mk.injEq]

/-- C5 (amended): for every valid pose whose orientation is the identity
quaternion, `translateRelative` and `translateAbsolute` agree (same state,
same notifications); on an invalid pose `translateRelative` is a no-op
while `translateAbsolute` still translates. -/
theorem pose_translate_identity (p : Pose) (d : Vec3)
    (hq : p.orientation.orientation = quatCreate) (hv : p.valid = true) :
    p.translateRelative d = p.translateAbsolute d := by
  have hid : vec3transformQuat d quatCreate = d := by
    obtain ⟨da, db, dc⟩ := d
    simp [vec3transformQuat, quatCreate]
  unfold Pose.translateRelative Pose.translateAbsolute
  rw [hv, hq, hid]
  simp

/-- C5 witness: on a fully valid pose with identity orientation, the two
translations of `[1,2,3]` coincide. -/
theorem pose_translate_identity_witness :
    poseValidSample.translateRelative ⟨1, 2, 3⟩
      = poseValidSample.translateAbsolute ⟨1, 2, 3⟩ :=
  pose_translate_identity poseValidSample ⟨1, 2, 3⟩ rfl rfl

set_option maxRecDepth 10000000

set_option maxHeartbeats 16000000

/-- C6 counterexample: the quaternion `[0,0,0,-1]` is axis-aligned (it
represents the identity rotation), yet `snap()` replaces it by `[0,0,0,1]`
— the negated quaternion — so `snap()` does not map every axis-aligned
orientation to itself. -/
theorem orientationState_snap_counterexample :
    isAxisAligned ⟨o, o, o, -l⟩ = true ∧
    (OrientationStateK.snap ⟨⟨o, o, o, -l⟩⟩).1.orientation ≠ ⟨o, o, o, -l⟩ := by
  decide

/-- Exhaustive evaluation of the `snap()` pipeline over the 48
axis-aligned quaternions, checked by computation. -/
theorem snapQuat_axisAligned_all : ∀ r ∈ axisAlignedQuats,
    isAxisAligned (snapQuat r) = true ∧
    mat3FromQuat (snapQuat r) = mat3FromQuat r ∧
    snapQuat (snapQuat r) = snapQuat r ∧
    (snapQuat r = r ∨ snapQuat r = ⟨-r.x, -r.y, -r.z, -r.w⟩) := by decide

/-- C6 (amended): for every axis-aligned orientation (the 48 unit
quaternions of 90°-multiple rotations), `snap()` produces an axis-aligned
orientation representing the same rotation — the same quaternion or its
negation — and `snap()` is idempotent: applying it twice equals applying
it once. -/
theorem orientationState_snap_axisAligned (q : QuatK)
    (hq : q ∈ axisAlignedQuats) :
    isAxisAligned (OrientationStateK.snap ⟨q⟩).1.orientation = true ∧
    mat3FromQuat (OrientationStateK.snap ⟨q⟩).1.orientation = mat3FromQuat q ∧
    (OrientationStateK.snap (OrientationStateK.snap ⟨q⟩).1).1
      = (OrientationStateK.snap ⟨q⟩).1 ∧
    ((OrientationStateK.snap ⟨q⟩).1.orientation = q ∨
      (OrientationStateK.snap ⟨q⟩).1.orientation = ⟨-q.x, -q.y, -q.z, -q.w⟩) := by
  have hthis := snapQuat_axisAligned_all q hq
  simp only [OrientationStateK.snap]
  exact ⟨hthis.1, hthis.2.1, congrArg OrientationStateK.mk hthis.2.2.1,
    hthis.2.2.2⟩

/-- C6 witness: the identity quaternion is axis-aligned and `snap()` is
idempotent at it. -/
theorem orientationState_snap_axisAligned_witness :
    (⟨o, o, o, l⟩ : QuatK) ∈ axisAlignedQuats ∧
    (OrientationStateK.snap (OrientationStateK.snap ⟨⟨o, o, o, l⟩⟩).1).1
      = (OrientationStateK.snap ⟨⟨o, o, o, l⟩⟩).1 := by
  have hmem : (⟨o, o, o, l⟩ : QuatK) ∈ axisAlignedQuats := by decide
  exact ⟨hmem, (orientationState_snap_axisAligned ⟨o, o, o, l⟩ hmem).2.2.1⟩

/-- The `SpatialPosition` voxel-size-change handler never touches the
embedded voxel size itself. -/
theorem spatialPosition_handler_keeps_voxelSize (sp : SpatialPosition) :
    sp.handleVoxelSizeChanged.1.voxelSize = sp.voxelSize := by
  rcases hvc : sp.voxelCoordinates with _ | vc
  · simp [SpatialPosition.handleVoxelSizeChanged, hvc]
  · by_cases hb : sp.spatialCoordinatesValid <;>
      simp [SpatialPosition.handleVoxelSizeChanged, hvc, hb]

/-- A dispatch of `voxelSize.changed` leaves a non-`NaN` zoom factor
unchanged (the guard in `NavigationState.handleVoxelSizeChanged`). -/
theorem dispatch_keeps_set_zoom (n : NavigationState) (z : ℚ)
    (hz : n.zoomFactor = some z) :
    n.dispatchVoxelSizeChanged.1.zoomFactor = some z := by
  simp [NavigationState.dispatchVoxelSizeChanged,
    NavigationState.handleVoxelSizeChanged, hz]

/-- A dispatch of `voxelSize.changed` with the zoom factor still unset
derives it from the (current) voxel size when that is valid. -/
theorem dispatch_derives_unset_zoom (n : NavigationState)
    (hz : n.zoomFactor = none) :
    n.dispatchVoxelSizeChanged.1.zoomFactor =
      (if n.voxelSize.valid then some (min3 n.voxelSize.size) else none) := by
  have hvs := spatialPosition_handler_keeps_voxelSize n.pose.position
  by_cases hval : n.pose.position.voxelSize.valid = true <;>
    simp [NavigationState.dispatchVoxelSizeChanged,
      NavigationState.handleVoxelSizeChanged,
      NavigationState.setZoomFactorFromVoxelSize, NavigationState.voxelSize,
      hz, hvs, hval]

/-- Setting voxel coordinates never touches the embedded voxel size. -/
theorem spatialPosition_setVoxel_keeps_voxelSize (sp : SpatialPosition) (v : Vec3) :
    (sp.setVoxelCoordinates v).1.voxelSize = sp.voxelSize := by
  by_cases hv : sp.voxelSize.valid = true <;>
    simp [SpatialPosition.setVoxelCoordinates,
      SpatialPosition.markSpatialCoordinatesChanged, hv]

/-- C4 counterexample: restoring from an object that carries a voxel size
`[1,1,1]`, voxel coordinates `[1,2,3]` (which parse successfully) and
spatial coordinates `[7,8,9]` ends with spatial coordinates `[7,8,9]`:
the `spatialCoordinates` field is applied even though the
`voxelCoordinates` restore succeeded, so the spatial field is not a mere
fallback. -/
theorem spatialPosition_restoreState_counterexample :
    (SpatialPosition.new.restoreState objBothCoords).map
        (fun r => r.1.spatialCoordinates) = some ⟨7, 8, 9⟩ ∧
    (SpatialPosition.new.restoreState objBothCoords).map
        (fun r => r.1.spatialCoordinates) ≠ some ⟨1, 2, 3⟩ := by
  have heq : (SpatialPosition.new.restoreState objBothCoords).map
      (fun r => r.1.spatialCoordinates) = some ⟨7, 8, 9⟩ := rfl
  refine ⟨heq, ?_⟩
  rw [heq]
  norm_num [Vec3.mk.injEq]

/-- C4 (amended): `SpatialPosition.restoreState` first restores the
embedded `VoxelSize` (from the `voxelSize` field alone), then attempts the
`voxelCoordinates` field if present, and then always also attempts the
`spatialCoordinates` field, which on a successful parse overrides the
result of the voxel-coordinate restore; every parse failure is swallowed
(the restore returns a state for every non-`undefined`/`null` argument —
property access on `undefined`/`null` would throw) and leaves the
corresponding sub-state unset. -/
theorem spatialPosition_restoreState_bestEffort :
    (∀ (p : SpatialPosition) (obj : JSValue),
        obj ≠ JSValue.undefined → obj ≠ JSValue.null →
        (p.restoreState obj).isSome = true) ∧
    (∀ (p : SpatialPosition) (vsJ vcJ scJ : JSValue),
        ((p.restoreState (obj3 vsJ vcJ scJ)).getD (p, [])).1.voxelSize
          = (p.voxelSize.restoreState vsJ).1) ∧
    (∀ (p : SpatialPosition) (vsJ vcJ scJ : JSValue) (sc : Vec3),
        parseFiniteVec3 scJ = some sc →
          ((p.restoreState (obj3 vsJ vcJ scJ)).getD (p, [])).1.spatialCoordinates
              = sc ∧
          ((p.restoreState (obj3 vsJ vcJ scJ)).getD
              (p, [])).1.spatialCoordinatesValid = true ∧
          ((p.restoreState (obj3 vsJ vcJ scJ)).getD (p, [])).1.voxelCoordinates
              = none) ∧
    (∀ (p : SpatialPosition) (vsJ vcJ scJ : JSValue),
        parseFiniteVec3 vcJ = none → parseFiniteVec3 scJ = none →
          ((p.restoreState (obj3 vsJ vcJ scJ)).getD
              (p, [])).1.spatialCoordinatesValid = false ∧
          (parseFiniteVec3 vsJ = none →
            ((p.restoreState (obj3 vsJ vcJ scJ)).getD
                (p, [])).1.voxelSize.valid = false)) := by
  refine ⟨?_, ?_, ?_, ?_⟩
  · intro p obj h1 h2
    cases obj
    · exact absurd rfl h1
    · exact absurd rfl h2
    all_goals rfl
  · intro p vsJ vcJ scJ
    rcases hr : p.voxelSize.restoreState vsJ with ⟨vs1, disp⟩
    rcases hvc : parseFiniteVec3 vcJ with _ | vcv <;>
      rcases hsc : parseFiniteVec3 scJ with _ | scv <;>
        cases disp <;> by_cases hv2 : vs1.valid = true <;>
          simp [SpatialPosition.restoreState, obj3, jsGet, jsHasOwnProperty,
            List.lookup, hr, hvc, hsc, hv2, SpatialPosition.setVoxelCoordinates,
            SpatialPosition.markSpatialCoordinatesChanged,
            spatialPosition_handler_keeps_voxelSize]
  · intro p vsJ vcJ scJ sc hsc
    refine ⟨?_, ?_, ?_⟩ <;>
      simp [SpatialPosition.restoreState, obj3, jsGet, jsHasOwnProperty,
        List.lookup, hsc, SpatialPosition.markSpatialCoordinatesChanged]
  · intro p vsJ vcJ scJ hvc hsc
    constructor
    · simp [SpatialPosition.restoreState, obj3, jsGet, jsHasOwnProperty,
        List.lookup, hvc, hsc]
    · intro hvs
      simp [SpatialPosition.restoreState, obj3, jsGet, jsHasOwnProperty,
        List.lookup, hvc, hsc, VoxelSize.restoreState, hvs]

/-- C4 witness: restore succeeds without exception on the combined object;
with both coordinate fields present and parsing, the spatial field wins
(`[7,8,9]`); with all three fields `null`, both the spatial validity and
the voxel-size validity end up unset. -/
theorem spatialPosition_restoreState_bestEffort_witness :
    (SpatialPosition.new.restoreState objBothCoords).isSome = true ∧
    ((SpatialPosition.new.restoreState objBothCoords).getD
        (SpatialPosition.new, [])).1.spatialCoordinates = ⟨7, 8, 9⟩ ∧
    ((SpatialPosition.new.restoreState
          (obj3 JSValue.null JSValue.null JSValue.null)).getD
        (SpatialPosition.new, [])).1.spatialCoordinatesValid = false ∧
    ((SpatialPosition.new.restoreState
          (obj3 JSValue.null JSValue.null JSValue.null)).getD
        (SpatialPosition.new, [])).1.voxelSize.valid = false := by
  obtain ⟨ha, hb, hc, hd⟩ := spatialPosition_restoreState_bestEffort
  have h79 := hc SpatialPosition.new objVS111
    (JSValue.arr [JSValue.num 1, JSValue.num 2, JSValue.num 3])
    (JSValue.arr [JSValue.num 7, JSValue.num 8, JSValue.num 9]) ⟨7, 8, 9⟩ rfl
  have hnull := hd SpatialPosition.new JSValue.null JSValue.null JSValue.null
    rfl rfl
  exact ⟨ha SpatialPosition.new objBothCoords (by simp [objBothCoords, obj3])
      (by simp [objBothCoords, obj3]),
    h79.1, hnull.1, hnull.2 rfl⟩

/-- C1: a `NavigationState` constructed with no explicit zoom factor while
its voxel size is invalid has the `NaN` ("unset", modelled `none`) zoom
factor; when the voxel size then becomes valid (restored from a parsed
3-vector), the zoom factor becomes the minimum of the three voxel-size
components. -/
theorem navigationState_zoom_derivation (p : Pose) (obj : JSValue) (sv : Vec3)
    (hinv : p.position.voxelSize.valid = false)
    (hparse : parseFiniteVec3 obj = some sv) :
    (NavigationState.new p none).zoomFactor = none ∧
    ((NavigationState.new p none).voxelSizeRestoreState obj).1.zoomFactor
      = some (min3 sv) := by
  have hzf : (NavigationState.new p none).zoomFactor = none := by
    simp [NavigationState.new, NavigationState.setZoomFactorFromVoxelSize,
      NavigationState.voxelSize, hinv]
  refine ⟨hzf, ?_⟩
  have hnew : NavigationState.new p none = ⟨p, none⟩ := by
    simp [NavigationState.new, NavigationState.setZoomFactorFromVoxelSize,
      NavigationState.voxelSize, hinv]
  rw [hnew]
  simp [NavigationState.voxelSizeRestoreState, NavigationState.voxelSize,
    VoxelSize.restoreState, hparse, VoxelSize.setValid, hinv]
  rw [dispatch_derives_unset_zoom _ rfl]
  simp [NavigationState.voxelSize]

/-- C1 witness: restoring voxel size `[2,4,3]` on a freshly constructed
navigation state turns the unset zoom factor into `2`. -/
theorem navigationState_zoom_derivation_witness :
    (NavigationState.new Pose.new none).zoomFactor = none ∧
    ((NavigationState.new Pose.new none).voxelSizeRestoreState
        objVS243).1.zoomFactor = some 2 := by
  have hthm := navigationState_zoom_derivation Pose.new objVS243 ⟨2, 4, 3⟩ rfl rfl
  refine ⟨hthm.1, ?_⟩
  rw [hthm.2]
  norm_num [min3]

/-- C2 counterexample: constructing a `NavigationState` with an explicitly
supplied zoom factor `5` while the voxel size is already valid (size
`[2,4,3]`) overwrites the supplied zoom with the derived minimum `2`
(the constructor calls `setZoomFactorFromVoxelSize` without the `NaN`
guard), so the derived default does overwrite an already-set zoom factor
at construction. -/
theorem navigationState_ctor_zoom_counterexample :
    (NavigationState.new poseWithValidVS (some 5)).zoomFactor = some 2 ∧
    (NavigationState.new poseWithValidVS (some 5)).zoomFactor ≠ some 5 := by
  have hz : (NavigationState.new poseWithValidVS (some 5)).zoomFactor = some 2 := by
    norm_num [NavigationState.new, NavigationState.setZoomFactorFromVoxelSize,
      NavigationState.voxelSize, poseWithValidVS, VoxelSize.newWith, min3,
      min_def]
  refine ⟨hz, ?_⟩
  rw [hz]
  norm_num

/-- C2 (amended): on every voxel-size change after construction the
derived default applies only while the zoom factor is the `NaN` sentinel
(an already-set zoom factor survives both `restoreState` and `setValid`
on the voxel size); at construction an explicitly supplied zoom factor
survives only when the voxel size is invalid — when it is already valid,
`setZoomFactorFromVoxelSize` unconditionally overwrites the zoom factor
with the minimum voxel-size component. -/
theorem navigationState_zoom_preservation :
    (∀ (n : NavigationState) (obj : JSValue) (z : ℚ), n.zoomFactor = some z →
      (n.voxelSizeRestoreState obj).1.zoomFactor = some z ∧
      n.voxelSizeSetValid.1.zoomFactor = some z) ∧
    (∀ (p : Pose) (z : ℚ), p.position.voxelSize.valid = false →
      (NavigationState.new p (some z)).zoomFactor = some z) ∧
    (∀ (p : Pose) (oz : Option ℚ), p.position.voxelSize.valid = true →
      (NavigationState.new p oz).zoomFactor
        = some (min3 p.position.voxelSize.size)) := by
  refine ⟨?_, ?_, ?_⟩
  · intro n obj z hz
    constructor
    · rcases hparse : parseFiniteVec3 obj with _ | v
      · simp [NavigationState.voxelSizeRestoreState, VoxelSize.restoreState,
          hparse, hz]
      · rcases hv : n.voxelSize.valid with _ | _
        · simp [NavigationState.voxelSizeRestoreState, VoxelSize.restoreState,
            hparse, VoxelSize.setValid, hv]
          exact dispatch_keeps_set_zoom _ z hz
        · simp [NavigationState.voxelSizeRestoreState, VoxelSize.restoreState,
            hparse, VoxelSize.setValid, hv, hz]
    · rcases hv : n.voxelSize.valid with _ | _
      · simp [NavigationState.voxelSizeSetValid, VoxelSize.setValid, hv]
        exact dispatch_keeps_set_zoom _ z hz
      · simp [NavigationState.voxelSizeSetValid, VoxelSize.setValid, hv, hz]
  · intro p z hinv
    simp [NavigationState.new, NavigationState.setZoomFactorFromVoxelSize,
      NavigationState.voxelSize, hinv]
  · intro p oz hval
    simp [NavigationState.new, NavigationState.setZoomFactorFromVoxelSize,
      NavigationState.voxelSize, hval]

/-- C2 witness: a set zoom factor `7` survives a voxel-size restore and
`setValid`; an explicit zoom survives construction with an invalid voxel
size; with a valid voxel size `[2,4,3]` the constructor derives zoom `2`. -/
theorem navigationState_zoom_preservation_witness :
    (navZoomSample.voxelSizeRestoreState objVS243).1.zoomFactor = some 7 ∧
    navZoomSample.voxelSizeSetValid.1.zoomFactor = some 7 ∧
    (NavigationState.new Pose.new (some 7)).zoomFactor = some 7 ∧
    (NavigationState.new poseWithValidVS none).zoomFactor = some 2 := by
  obtain ⟨h1, h2, h3⟩ := navigationState_zoom_preservation
  have ha := h1 navZoomSample objVS243 7 rfl
  refine ⟨ha.1, ha.2, h2 Pose.new 7 rfl, ?_⟩
  rw [h3 poseWithValidVS none rfl]
  norm_num [poseWithValidVS, VoxelSize.newWith, min3, min_def]

/-- C3: calling `setVoxelCoordinates(v)` while the voxel size is invalid
stores `v` as the pending voxel coordinate; when the voxel size then
becomes valid (restored from a parsed 3-vector `sz`), the pending
coordinate is cleared either way, the spatial coordinates are valid
afterwards, observers are notified, and — provided the spatial
coordinates were not already valid — the pending coordinate is converted
to spatial coordinates (`v * sz` component-wise). -/
theorem spatialPosition_pending_resolution (sp : SpatialPosition) (v : Vec3)
    (obj : JSValue) (sz : Vec3)
    (hinv : sp.voxelSize.valid = false)
    (hparse : parseFiniteVec3 obj = some sz) :
    (sp.setVoxelCoordinates v).1.voxelCoordinates = some v ∧
    ((sp.setVoxelCoordinates v).1.voxelSizeRestoreState obj).1.voxelCoordinates
      = none ∧
    ((sp.setVoxelCoordinates v).1.voxelSizeRestoreState obj).1.spatialCoordinatesValid
      = true ∧
    (sp.spatialCoordinatesValid = false →
      ((sp.setVoxelCoordinates v).1.voxelSizeRestoreState obj).1.spatialCoordinates
        = vec3multiply v sz) ∧
    ((sp.setVoxelCoordinates v).1.voxelSizeRestoreState obj).2 ≠ [] := by
  have hset : (sp.setVoxelCoordinates v).1 = { sp with voxelCoordinates := some v } := by
    simp [SpatialPosition.setVoxelCoordinates, hinv]
  rw [hset]
  by_cases hb : sp.spatialCoordinatesValid <;>
    simp [SpatialPosition.voxelSizeRestoreState, VoxelSize.restoreState,
      hparse, VoxelSize.setValid, hinv, SpatialPosition.handleVoxelSizeChanged,
      VoxelSize.spatialFromVoxel, hb]

/-- C3 witness: `setVoxelCoordinates([1,2,3])` on the default (invalid)
position followed by restoring voxel size `[1,1,1]` yields spatial
coordinates `[1,2,3]`, valid and with the pending coordinate cleared. -/
theorem spatialPosition_pending_resolution_witness :
    ((SpatialPosition.new.setVoxelCoordinates ⟨1, 2, 3⟩).1.voxelSizeRestoreState
        objVS111).1.spatialCoordinates = ⟨1, 2, 3⟩ ∧
    ((SpatialPosition.new.setVoxelCoordinates ⟨1, 2, 3⟩).1.voxelSizeRestoreState
        objVS111).1.spatialCoordinatesValid = true ∧
    ((SpatialPosition.new.setVoxelCoordinates ⟨1, 2, 3⟩).1.voxelSizeRestoreState
        objVS111).1.voxelCoordinates = none ∧
    ((SpatialPosition.new.setVoxelCoordinates ⟨1, 2, 3⟩).1.voxelSizeRestoreState
        objVS111).2 ≠ [] := by
  have hthm := spatialPosition_pending_resolution SpatialPosition.new ⟨1, 2, 3⟩
    objVS111 ⟨1, 1, 1⟩ rfl rfl
  refine ⟨?_, hthm.2.2.1, hthm.2.1, hthm.2.2.2.2⟩
  rw [hthm.2.2.2.1 rfl]
  norm_num [vec3multiply]

/-- C10 witness: on the invalid default pose, `translateAbsolute [1,2,3]`
moves the coordinates and notifies while `translateRelative [1,2,3]` is a
complete no-op. -/
theorem pose_translateAbsolute_frame_witness :
    (Pose.new.translateAbsolute ⟨1, 2, 3⟩).1.position.spatialCoordinates = ⟨1, 2, 3⟩ ∧
    (Pose.new.translateAbsolute ⟨1, 2, 3⟩).2 ≠ [] ∧
    (Pose.new.translateAbsolute ⟨1, 2, 3⟩).1.valid = false ∧
    Pose.new.translateRelative ⟨1, 2, 3⟩ = (Pose.new, []) := by
  have hthm := pose_translateAbsolute_frame Pose.new ⟨1, 2, 3⟩
  refine ⟨?_, hthm.2.2.2.2.2.1, rfl, hthm.2.2.2.2.2.2.2 rfl⟩
  simp [Pose.translateAbsolute, Pose.new, SpatialPosition.new, VoxelSize.new,
    vec3add, vec3create]

end NS
